import Mathlib

/-!
Verification of the core services of the sns-engagement-app repository.

The TypeScript sources are embedded shallowly:
* JS `number` arithmetic is modelled over `ℚ` (exact rational arithmetic);
  `Math.round` rounds half toward positive infinity, `Math.floor` is `Int.floor`.
* `Date` values are modelled as integers (absolute day count for the
  schedule generator, millisecond timestamps for the trend cache).
* The Anthropic LLM client, `JSON.parse` and `Math.random` are external
  collaborators; they enter the model as explicit oracle parameters.

Embedded files:
* `scoreCalculator` (the score-calculation service)
* `src/services/strategyManager.ts`
* `src/services/trendDetector.ts`
-/

namespace Sns

/-- JS `Math.round`: rounds half toward +∞, i.e. `⌊x + 1/2⌋`. -/
def jsRound (q : ℚ) : ℤ := ⌊q + 1 / 2⌋

/-- JS `Math.floor` on rationals. -/
def jsFloor (q : ℚ) : ℤ := ⌊q⌋

/-- Source `Platform` from `src/types/index.ts`. -/
inductive Platform
  | threads
  | instagram
  | twitter
deriving DecidableEq

def platformToString : Platform → String
  | .threads => "threads"
  | .instagram => "instagram"
  | .twitter => "twitter"

/-- Source `UserBehaviorData` from the score-calculation service. -/
structure UserBehaviorData where
  likesGiven : ℚ
  commentsGiven : ℚ
  sharesGiven : ℚ
  repliesReceived : ℚ
  postsThisWeek : ℚ
  postsLastWeek : ℚ
  averagePostsPerWeek : ℚ
  postTimings : List ℚ
  trendingHashtagsUsed : ℚ
  trendingTopicsEngaged : ℚ
  earlyTrendEngagement : ℚ
  followersGained : ℚ
  mentionsReceived : ℚ
  savedByOthers : ℚ
  profileVisits : ℚ
deriving DecidableEq

/-- Source `PlatformScore` (the numeric fields; explanatory `factors`, `id` and
`calculatedAt` carry no score information and are omitted). -/
structure PlatformScore where
  platform : Platform
  overallScore : ℤ
  engagementScore : ℤ
  consistencyScore : ℤ
  trendScore : ℤ
  communityScore : ℤ
deriving DecidableEq

/-! `calculateEngagementScore`: the four summands are hoisted from the
function body of the source (`likeScore`, `commentScore`, `shareScore`,
`replyRatio`/`replyScore`). -/

def likeScore (d : UserBehaviorData) : ℚ := min 25 (d.likesGiven / 50 * 25)

def commentScore (d : UserBehaviorData) : ℚ := min 30 (d.commentsGiven / 20 * 30)

def shareScore (d : UserBehaviorData) : ℚ := min 20 (d.sharesGiven / 10 * 20)

def replyRatio (d : UserBehaviorData) : ℚ :=
  if 0 < d.repliesReceived then min 1 (d.commentsGiven / d.repliesReceived) else 0.5

def replyScore (d : UserBehaviorData) : ℚ := replyRatio d * 25

def calculateEngagementScore (d : UserBehaviorData) : ℤ :=
  jsRound (likeScore d + commentScore d + shareScore d + replyScore d)

/-! `calculateConsistencyScore`. -/

def frequencyVariance (d : UserBehaviorData) : ℚ :=
  if 0 < d.postsLastWeek then |d.postsThisWeek - d.postsLastWeek| / d.postsLastWeek else 1

def stabilityScore (d : UserBehaviorData) : ℚ := max 0 (40 - frequencyVariance d * 40)

def idealPostsPerWeek : ℚ := 5

def frequencyDiff (d : UserBehaviorData) : ℚ := |d.postsThisWeek - idealPostsPerWeek|

def frequencyScore (d : UserBehaviorData) : ℚ := max 0 (30 - frequencyDiff d * 5)

def goldenHours : List ℚ := [7, 8, 9, 12, 13, 19, 20, 21, 22]

def goldenHourPosts (d : UserBehaviorData) : ℕ :=
  (d.postTimings.filter (fun h => goldenHours.contains h)).length

def timingRatio (d : UserBehaviorData) : ℚ :=
  if 0 < d.postTimings.length then
    (goldenHourPosts d : ℚ) / (d.postTimings.length : ℚ)
  else 0

def timingScore (d : UserBehaviorData) : ℚ := timingRatio d * 30

def calculateConsistencyScore (d : UserBehaviorData) : ℤ :=
  jsRound (stabilityScore d + frequencyScore d + timingScore d)

/-! `calculateTrendScore`. -/

def hashtagScore (d : UserBehaviorData) : ℚ := min 35 (d.trendingHashtagsUsed / 5 * 35)

def topicScore (d : UserBehaviorData) : ℚ := min 35 (d.trendingTopicsEngaged / 3 * 35)

def earlyScore (d : UserBehaviorData) : ℚ := min 30 (d.earlyTrendEngagement / 2 * 30)

def calculateTrendScore (d : UserBehaviorData) : ℤ :=
  jsRound (hashtagScore d + topicScore d + earlyScore d)

/-! `calculateCommunityScore`. -/

def followerScore (d : UserBehaviorData) : ℚ := min 30 (d.followersGained / 10 * 30)

def mentionScore (d : UserBehaviorData) : ℚ := min 25 (d.mentionsReceived / 5 * 25)

def savedScore (d : UserBehaviorData) : ℚ := min 25 (d.savedByOthers / 10 * 25)

def profileScore (d : UserBehaviorData) : ℚ := min 20 (d.profileVisits / 50 * 20)

def calculateCommunityScore (d : UserBehaviorData) : ℤ :=
  jsRound (followerScore d + mentionScore d + savedScore d + profileScore d)

/-- Source `calculateOverallScore`: fixed weights 0.35 / 0.25 / 0.20 / 0.20. -/
def calculateOverallScore (engagementScore consistencyScore trendScore communityScore : ℤ) : ℤ :=
  jsRound ((engagementScore : ℚ) * 0.35 + (consistencyScore : ℚ) * 0.25 +
    (trendScore : ℚ) * 0.2 + (communityScore : ℚ) * 0.2)

/-- Source `calculatePlatformScore` (the `score` component of its result;
recommendations and the synthesized display history carry no score data). -/
def calculatePlatformScore (platform : Platform) (d : UserBehaviorData) : PlatformScore :=
  ⟨platform,
   calculateOverallScore (calculateEngagementScore d) (calculateConsistencyScore d)
     (calculateTrendScore d) (calculateCommunityScore d),
   calculateEngagementScore d,
   calculateConsistencyScore d,
   calculateTrendScore d,
   calculateCommunityScore d⟩

/-- The all-zero behavioral snapshot (every counter 0, no recorded post timings). -/
def zeroBehaviorData : UserBehaviorData :=
  ⟨0, 0, 0, 0, 0, 0, 0, [], 0, 0, 0, 0, 0, 0, 0⟩

/-- Same behavioral snapshot with only `commentsGiven` replaced (used to state
monotonicity in `commentsGiven` alone). -/
def withCommentsGiven (d : UserBehaviorData) (c : ℚ) : UserBehaviorData :=
  ⟨d.likesGiven, c, d.sharesGiven, d.repliesReceived, d.postsThisWeek, d.postsLastWeek,
   d.averagePostsPerWeek, d.postTimings, d.trendingHashtagsUsed, d.trendingTopicsEngaged,
   d.earlyTrendEngagement, d.followersGained, d.mentionsReceived, d.savedByOthers,
   d.profileVisits⟩

/-! ## strategyManager.ts -/

/-- Source `PostMode` from `src/types/index.ts`. -/
inductive PostMode
  | impression
  | expression
deriving DecidableEq

/-- Source `CommentStrategy` from `src/types/index.ts`. -/
structure CommentStrategy where
  enabled : Bool
  targetTrendingPosts : Bool
  maxCommentsPerDay : ℤ
  avoidNegative : Bool
deriving DecidableEq

/-- Source `EngagementStrategy` from `src/types/index.ts`. -/
structure EngagementStrategy where
  impressionRatio : ℚ
  expressionRatio : ℚ
  weeklyExpressionDays : List ℤ
  commentStrategy : CommentStrategy
deriving DecidableEq

/-- Source `DEFAULT_STRATEGY`. -/
def DEFAULT_STRATEGY : EngagementStrategy :=
  ⟨0.9, 0.1, [0, 6], ⟨true, true, 10, true⟩⟩

/-- Source `DAY_LABELS`. -/
def DAY_LABELS : List String := ["日", "月", "火", "水", "木", "金", "土"]

/-- Models TS `Partial<EngagementStrategy>`: each field optionally supplied. -/
structure StrategyInput where
  impressionRatio : Option ℚ
  expressionRatio : Option ℚ
  weeklyExpressionDays : Option (List ℤ)
  commentStrategy : Option CommentStrategy

/-- Object spread `{ ...DEFAULT_STRATEGY, ...strategy }` in the constructor. -/
def mergeStrategy (base : EngagementStrategy) (s : StrategyInput) : EngagementStrategy :=
  ⟨s.impressionRatio.getD base.impressionRatio,
   s.expressionRatio.getD base.expressionRatio,
   s.weeklyExpressionDays.getD base.weeklyExpressionDays,
   s.commentStrategy.getD base.commentStrategy⟩

/-- Source `StrategyManager.normalizeRatios`. -/
def normalizeRatios (s : EngagementStrategy) : EngagementStrategy :=
  let total := s.impressionRatio + s.expressionRatio
  if total ≠ 1 then
    ⟨s.impressionRatio / total, s.expressionRatio / total,
     s.weeklyExpressionDays, s.commentStrategy⟩
  else s

/-- The `StrategyManager` constructor: merge the supplied fields over the
defaults, then normalize the ratios. -/
def newStrategyManager (s : StrategyInput) : EngagementStrategy :=
  normalizeRatios (mergeStrategy DEFAULT_STRATEGY s)

/-- Source `StrategyManager.setImpressionRatio`. -/
def setImpressionRatio (s : EngagementStrategy) (ratio : ℚ) : EngagementStrategy :=
  let clampedRatio := max 0.5 (min 1 ratio)
  ⟨clampedRatio, 1 - clampedRatio, s.weeklyExpressionDays, s.commentStrategy⟩

/-- Source `StrategyManager.exportStrategy`: `JSON.stringify` of the strategy record.
JSON serialization of the record is modelled as the identity on the record
(every field is serialized and re-read exactly). -/
def exportStrategy (s : EngagementStrategy) : EngagementStrategy := s

/-- Source `StrategyManager.importStrategy` on a successfully parsed strategy record:
`{ ...DEFAULT_STRATEGY, ...parsed }` (the parsed record supplies every field)
followed by `normalizeRatios`. -/
def importStrategy (parsed : EngagementStrategy) : EngagementStrategy :=
  normalizeRatios parsed

/-- Source `Date.prototype.getDay` for a date given as an absolute day number
(1970-01-01 = day 0, a Thursday, so day-of-week `(d + 4) mod 7`; 0 = Sunday). -/
def getDay (date : ℤ) : ℤ := (date + 4) % 7

/-- Source `StrategyManager.getRecommendedMode`, parameterized by the stored
`weeklyExpressionDays`. -/
def getRecommendedMode (weeklyExpressionDays : List ℤ) (date : ℤ) : PostMode :=
  if getDay date ∈ weeklyExpressionDays then .expression else .impression

/-- Source `WeeklyScheduleItem` from `strategyManager.ts`. -/
structure WeeklyScheduleItem where
  date : ℤ
  dayOfWeek : ℤ
  dayLabel : String
  recommendedMode : PostMode
  isExpressionDay : Bool
deriving DecidableEq

/-- A fallback item, used only as the default of safe list indexing in
statements about `generateWeeklySchedule`. -/
def dummyScheduleItem : WeeklyScheduleItem := ⟨0, 0, "", .impression, false⟩

/-- Loop body of `generateWeeklySchedule` for day offset `i`. -/
def scheduleItem (weeklyExpressionDays : List ℤ) (startDate : ℤ) (i : ℕ) :
    WeeklyScheduleItem :=
  let date := startDate + i
  let dayOfWeek := getDay date
  let isExpressionDay : Bool := dayOfWeek ∈ weeklyExpressionDays
  ⟨date, dayOfWeek, DAY_LABELS.getD dayOfWeek.toNat "",
   if isExpressionDay then .expression else .impression,
   isExpressionDay⟩

/-- Source `StrategyManager.generateWeeklySchedule`, parameterized by the stored
`weeklyExpressionDays`; `date.setDate(date.getDate() + i)` is day addition. -/
def generateWeeklySchedule (weeklyExpressionDays : List ℤ) (startDate : ℤ) :
    List WeeklyScheduleItem :=
  (List.range 7).map (scheduleItem weeklyExpressionDays startDate)

/-- Source `RatioHealthCheck.status` values. -/
inductive RatioStatus
  | healthy
  | acceptable
  | warning
  | critical
deriving DecidableEq

/-- Source `StrategyManager.isRatioHealthy` (its `status`; the advisory `message`
strings carry no logic), as a function of the stored `impressionRatio`. -/
def isRatioHealthy (impressionRatio : ℚ) : RatioStatus :=
  if 0.8 ≤ impressionRatio ∧ impressionRatio ≤ 0.95 then .healthy
  else if 0.95 < impressionRatio then .warning
  else if impressionRatio < 0.7 then .critical
  else .acceptable

/-- The expression-oriented keyword table of `classifyPost`. -/
def expressionKeywords : List String :=
  ["個人的", "私は", "思う", "感じる", "好き", "嫌い", "日記", "雑談", "つぶやき", "独り言"]

/-- The impression-oriented keyword table of `classifyPost`. -/
def impressionKeywords : List String :=
  ["方法", "コツ", "ポイント", "解説", "紹介", "おすすめ", "まとめ", "ランキング",
   "トレンド", "知識", "情報", "ノウハウ", "tips"]

/-- JS `String.prototype.includes`: substring containment. -/
def jsIncludes (content kw : String) : Bool := decide (kw.toList <:+: content.toList)

/-- Source `PostClassification` from `strategyManager.ts`. -/
structure PostClassification where
  suggestedMode : PostMode
  confidence : ℚ
  expressionScore : ℕ
  impressionScore : ℕ
deriving DecidableEq

/-- Source `StrategyManager.classifyPost`. -/
def classifyPost (content : String) : PostClassification :=
  let expressionScore := (expressionKeywords.filter (fun kw => jsIncludes content kw)).length
  let impressionScore := (impressionKeywords.filter (fun kw => jsIncludes content kw)).length
  let suggestedMode : PostMode :=
    if expressionScore ≤ impressionScore then .impression else .expression
  ⟨suggestedMode, |(impressionScore : ℚ) - (expressionScore : ℚ)| / 5,
   expressionScore, impressionScore⟩

/-! ## trendDetector.ts -/

/-- Source `TrendCategory`. -/
inductive TrendCategory
  | entertainment
  | technology
  | lifestyle
  | business
  | news
  | sports
  | education
  | other
deriving DecidableEq

def categoryToString : TrendCategory → String
  | .entertainment => "entertainment"
  | .technology => "technology"
  | .lifestyle => "lifestyle"
  | .business => "business"
  | .news => "news"
  | .sports => "sports"
  | .education => "education"
  | .other => "other"

/-- Source `TrendSentiment`. -/
inductive TrendSentiment
  | positive
  | negative
  | neutral
  | mixed
deriving DecidableEq

/-- Source `TrendingTopic`; `detectedAt` is a millisecond timestamp. -/
structure TrendingTopic where
  id : String
  name : String
  platform : Platform
  category : TrendCategory
  volume : ℚ
  growthRate : ℚ
  sentiment : TrendSentiment
  relatedHashtags : List String
  peakHour : ℚ
  recommendationScore : ℚ
  detectedAt : ℤ
deriving DecidableEq

/-- Competition levels used by `HashtagAnalysis` and `OptimalPostTiming`. -/
inductive CompetitionLevel
  | low
  | medium
  | high
deriving DecidableEq

/-- Values of `HashtagAnalysis.trendingStatus`. -/
inductive TrendingStatus
  | rising
  | stable
  | declining
deriving DecidableEq

/-- Source `HashtagAnalysis`. -/
structure HashtagAnalysis where
  hashtag : String
  platform : Platform
  popularity : ℤ
  competitionLevel : CompetitionLevel
  relevanceScore : ℤ
  trendingStatus : TrendingStatus
  relatedTopics : List String
  bestTimeToUse : List ℕ
  estimatedReach : ℤ
deriving DecidableEq

/-- Source `BuzzPatternType`. -/
inductive BuzzPatternType
  | storytelling
  | educational
  | controversial
  | inspirational
  | humor
  | breaking_news
  | listicle
  | question
  | behind_the_scenes
deriving DecidableEq

/-- Range `optimalLength` of a `BuzzPattern`. -/
structure OptimalLength where
  min : ℕ
  max : ℕ
deriving DecidableEq

/-- Source `BuzzPattern`. -/
structure BuzzPattern where
  id : String
  platform : Platform
  patternType : BuzzPatternType
  description : String
  successRate : ℚ
  averageEngagement : ℚ
  examples : List String
  requiredElements : List String
  optimalLength : OptimalLength
  bestHashtagCount : ℕ
deriving DecidableEq

/-- Values of `OptimalPostTiming.recommendation`. -/
inductive TimingRecommendation
  | highly_recommended
  | recommended
  | acceptable
  | avoid
deriving DecidableEq

/-- Source `OptimalPostTiming`. -/
structure OptimalPostTiming where
  platform : Platform
  dayOfWeek : ℕ
  hour : ℕ
  engagementMultiplier : ℚ
  audienceActive : ℤ
  competition : CompetitionLevel
  recommendation : TimingRecommendation
deriving DecidableEq

/-- Source `TrendDetectionRequest`; optional fields are `Option`s. -/
structure TrendDetectionRequest where
  platform : Platform
  category : Option TrendCategory
  limit : Option ℕ
  includeHashtags : Option Bool
  includeBuzzPatterns : Option Bool
deriving DecidableEq

/-- Source `TrendDetectionResponse`; `analyzedAt` is a millisecond timestamp. -/
structure TrendDetectionResponse where
  trends : List TrendingTopic
  recommendedHashtags : List HashtagAnalysis
  buzzPatterns : List BuzzPattern
  optimalTimings : List OptimalPostTiming
  analyzedAt : ℤ
deriving DecidableEq

/-- Source `HOURLY_ENGAGEMENT_MULTIPLIERS`: one multiplier per hour 0–23. -/
def hourlyTable : Platform → List ℚ
  | .threads =>
    [0.3, 0.2, 0.1, 0.1, 0.1, 0.2,
     0.5, 0.8, 0.9, 0.7, 0.6, 0.7,
     0.9, 0.7, 0.6, 0.6, 0.7, 0.8,
     0.9, 1.0, 1.0, 0.9, 0.7, 0.5]
  | .instagram =>
    [0.3, 0.2, 0.1, 0.1, 0.1, 0.2,
     0.6, 0.7, 0.8, 0.6, 0.5, 0.7,
     0.8, 0.6, 0.5, 0.5, 0.6, 0.8,
     0.9, 1.0, 1.0, 0.9, 0.7, 0.4]
  | .twitter =>
    [0.4, 0.3, 0.2, 0.2, 0.2, 0.3,
     0.5, 0.8, 0.9, 0.8, 0.7, 0.8,
     1.0, 0.8, 0.7, 0.7, 0.8, 0.9,
     0.9, 0.8, 0.7, 0.6, 0.5, 0.4]

/-- Lookup `multipliers[hour] || 0.5`: a missing hour gives JS `undefined` and a
zero multiplier is falsy, so both fall back to 0.5 (no table entry is 0). -/
def hourlyMultiplier (platform : Platform) (hour : ℕ) : ℚ :=
  let raw := (hourlyTable platform).getD hour 0
  if raw = 0 then 0.5 else raw

/-- Source `BUZZ_PATTERN_TEMPLATES`. -/
def BUZZ_PATTERN_TEMPLATES : Platform → List BuzzPattern
  | .threads =>
    [⟨"threads-storytelling", .threads, .storytelling, "個人的な体験を共有するストーリー形式",
      0.75, 2500, ["去年まで○○だった自分が、今では...", "失敗から学んだ3つのこと"],
      ["導入のフック", "転機となる出来事", "学びや気づき"], ⟨200, 500⟩, 3⟩,
     ⟨"threads-educational", .threads, .educational, "知識やノウハウを共有する教育的コンテンツ",
      0.7, 2000, ["○○する方法を5ステップで解説", "知らないと損する○○のコツ"],
      ["明確な価値提案", "具体的なステップ", "実践可能なアドバイス"], ⟨150, 450⟩, 3⟩,
     ⟨"threads-question", .threads, .question, "フォロワーに問いかける形式",
      0.65, 1800, ["みんなは○○についてどう思う?", "○○と○○、どっち派?"],
      ["明確な質問", "回答しやすい選択肢", "共感できるテーマ"], ⟨50, 200⟩, 2⟩]
  | .instagram =>
    [⟨"instagram-behind-the-scenes", .instagram, .behind_the_scenes, "普段見せない舞台裏を公開",
      0.8, 3500, ["普段は見せない作業風景", "○○の裏側をお見せします"],
      ["リアルな瞬間", "人間味のある内容", "価値ある舞台裏情報"], ⟨100, 2200⟩, 15⟩,
     ⟨"instagram-inspirational", .instagram, .inspirational,
      "感動や共感を呼ぶインスピレーショナルコンテンツ",
      0.72, 3000, ["諦めかけたときに思い出すこと", "○年前の自分に伝えたい言葉"],
      ["感情に訴えるフック", "ストーリー性", "前向きなメッセージ"], ⟨150, 2000⟩, 15⟩]
  | .twitter =>
    [⟨"twitter-controversial", .twitter, .controversial, "議論を呼ぶ意見表明",
      0.6, 5000, ["○○は実は○○だと思う。理由は...", "人気の○○、実は効果がないって知ってた?"],
      ["明確な主張", "根拠の提示", "議論の余地"], ⟨50, 280⟩, 2⟩,
     ⟨"twitter-listicle", .twitter, .listicle, "リスト形式の情報共有",
      0.68, 4000, ["○○に役立つツール5選", "成功者に共通する3つの習慣"],
      ["数字を含むタイトル", "具体的な項目", "保存したくなる価値"], ⟨100, 280⟩, 2⟩]

/-- Result of the awaited Anthropic call: either the text of the model's first
content block (an empty string when the first block is not text), or a thrown
network/auth error. -/
inductive LLMResult
  | success (responseText : String)
  | failure

/-- One parsed element of the LLM's JSON array of topics. -/
structure TopicData where
  name : String
  category : TrendCategory
  volume : ℚ
  growthRate : ℚ
  sentiment : TrendSentiment
  relatedHashtags : List String
  peakHour : ℚ
  recommendationScore : ℚ

/-- Oracles for the external collaborators of `TrendDetector`:
`client` is the configured Anthropic client (`none` when no API key is set)
together with the outcome of calling it; `parseTopics` is `JSON.parse`
specialized to the expected array shape (`none` models a parse error being
thrown); `rand` is the `Math.random()` stream consumed by `analyzeHashtags`. -/
structure TrendEnv where
  client : Option LLMResult
  parseTopics : String → Option (List TopicData)
  rand : ℕ → ℚ

/-- Regex `/\[[\s\S]*\]/` applied to the response text: the (greedy) match runs
from the first `[` to the last `]`, and exists exactly when some `]` follows
the first `[`. -/
def extractJsonArray (s : String) : Option String :=
  let cs := s.toList
  match cs.findIdx? (fun c => c = '['), cs.reverse.findIdx? (fun c => c = ']') with
  | some i, some jr =>
    let j := cs.length - 1 - jr
    if i < j then some (String.mk ((cs.drop i).take (j - i + 1))) else none
  | _, _ => none

/-- Source `getMockTrendingTopics`: the static per-platform mock table;
every `detectedAt` is the call time `now`. -/
def mockTopics (now : ℤ) : Platform → List TrendingTopic
  | .threads =>
    [⟨"trend-threads-1", "AI活用術", .threads, .technology, 15000, 1.5, .positive,
      ["AI", "生産性向上", "ChatGPT"], 12, 85, now⟩,
     ⟨"trend-threads-2", "副業・フリーランス", .threads, .business, 12000, 1.3, .positive,
      ["副業", "フリーランス", "在宅ワーク"], 20, 80, now⟩,
     ⟨"trend-threads-3", "自己投資", .threads, .lifestyle, 10000, 1.2, .positive,
      ["自己投資", "読書", "学び"], 21, 75, now⟩,
     ⟨"trend-threads-4", "SNS運用", .threads, .business, 8000, 1.4, .neutral,
      ["SNS運用", "マーケティング", "フォロワー"], 19, 78, now⟩,
     ⟨"trend-threads-5", "ミニマリスト", .threads, .lifestyle, 6000, 1.1, .positive,
      ["ミニマリスト", "断捨離", "シンプルライフ"], 22, 70, now⟩]
  | .instagram =>
    [⟨"trend-instagram-1", "ライフスタイル", .instagram, .lifestyle, 25000, 1.2, .positive,
      ["暮らし", "日常", "ライフスタイル"], 20, 82, now⟩,
     ⟨"trend-instagram-2", "カフェ巡り", .instagram, .entertainment, 18000, 1.3, .positive,
      ["カフェ", "カフェ巡り", "コーヒー"], 15, 75, now⟩,
     ⟨"trend-instagram-3", "フィットネス", .instagram, .lifestyle, 20000, 1.4, .positive,
      ["筋トレ", "フィットネス", "ダイエット"], 7, 80, now⟩]
  | .twitter =>
    [⟨"trend-twitter-1", "テック業界", .twitter, .technology, 30000, 1.6, .mixed,
      ["テック", "エンジニア", "プログラミング"], 12, 88, now⟩,
     ⟨"trend-twitter-2", "ニュース速報", .twitter, .news, 50000, 2.0, .neutral,
      ["速報", "ニュース", "最新"], 8, 70, now⟩,
     ⟨"trend-twitter-3", "スタートアップ", .twitter, .business, 15000, 1.4, .positive,
      ["スタートアップ", "起業", "VC"], 17, 82, now⟩]

/-- Category filter and `limit` truncation applied to the mock table. -/
def getMockTrendingTopics (now : ℤ) (platform : Platform)
    (category : Option TrendCategory) (limit : ℕ) : List TrendingTopic :=
  let topics := mockTopics now platform
  let topics :=
    match category with
    | some c => topics.filter (fun (t : TrendingTopic) => decide (t.category = c))
    | none => topics
  topics.take limit

/-- Source `generateTrendingTopics`: without a client (no API key), or when
the awaited call throws, or when the JSON-array regex finds no match, or when
`JSON.parse` throws, the static mock table is used; otherwise the parsed
topics are mapped into `TrendingTopic`s stamped with the call time. -/
def generateTrendingTopics (env : TrendEnv) (now : ℤ) (platform : Platform)
    (category : Option TrendCategory) (limit : ℕ) : List TrendingTopic :=
  match env.client with
  | none => getMockTrendingTopics now platform category limit
  | some .failure => getMockTrendingTopics now platform category limit
  | some (.success responseText) =>
    match extractJsonArray responseText with
    | none => getMockTrendingTopics now platform category limit
    | some matched =>
      match env.parseTopics matched with
      | none => getMockTrendingTopics now platform category limit
      | some topicsData =>
        topicsData.enum.map fun p =>
          ⟨"trend-" ++ platformToString platform ++ "-" ++ toString now ++ "-" ++ toString p.1,
           p.2.name, platform, p.2.category, p.2.volume, p.2.growthRate, p.2.sentiment,
           p.2.relatedHashtags, p.2.peakHour, p.2.recommendationScore, now⟩

/-- JS `Set` insertion: append if not yet present (first-occurrence order). -/
def insertUnique (l : List String) (a : String) : List String :=
  if a ∈ l then l else l ++ [a]

/-- Source `getBestTimesForHashtag`: the hours whose multiplier is ≥ 0.8. -/
def getBestTimesForHashtag (platform : Platform) : List ℕ :=
  (List.range 24).filter (fun h => decide (0.8 ≤ (hourlyTable platform).getD h 0))

/-- Source `analyzeHashtags`: distinct related hashtags of all trends (first 20),
each analyzed with three pseudo-random draws (`rand` is consumed in call order:
popularity, relevance, reach). -/
def analyzeHashtags (rand : ℕ → ℚ) (platform : Platform)
    (trends : List TrendingTopic) : List HashtagAnalysis :=
  let allHashtags := trends.foldl (fun acc t => t.relatedHashtags.foldl insertUnique acc) []
  let hashtags := allHashtags.take 20
  hashtags.enum.map fun p =>
    let index := p.1
    let hashtag := p.2
    let popularity := jsFloor (rand (3 * index) * 100) + 1
    let competitionLevel : CompetitionLevel :=
      if 70 < popularity then .high else if 40 < popularity then .medium else .low
    ⟨hashtag, platform, popularity, competitionLevel,
     jsFloor (rand (3 * index + 1) * 40) + 60,
     if index < 5 then .rising else if index < 15 then .stable else .declining,
     (trends.filter (fun t => t.relatedHashtags.contains hashtag)).map (fun t => t.name),
     getBestTimesForHashtag platform,
     jsFloor (rand (3 * index + 2) * 50000) + 1000⟩

/-- Source `getBuzzPatterns` (`BUZZ_PATTERN_TEMPLATES[platform] || []`;
the record is total, so the fallback is unreachable). -/
def getBuzzPatterns (platform : Platform) : List BuzzPattern :=
  BUZZ_PATTERN_TEMPLATES platform

/-- Source `calculateOptimalTimings`: 7 days × 24 hours. -/
def calculateOptimalTimings (platform : Platform) : List OptimalPostTiming :=
  (List.range 7).flatMap fun day =>
    (List.range 24).map fun hour =>
      let multiplier := hourlyMultiplier platform hour
      let audienceActive := jsFloor (multiplier * 100)
      let competition : CompetitionLevel :=
        if 0.8 < multiplier then .high else if 0.5 < multiplier then .medium else .low
      let recommendation : TimingRecommendation :=
        if 0.9 ≤ multiplier then .highly_recommended
        else if 0.7 ≤ multiplier then .recommended
        else if 0.4 ≤ multiplier then .acceptable
        else .avoid
      ⟨platform, day, hour, multiplier, audienceActive, competition, recommendation⟩

/-- Cache entry of the `cachedTrends` map. -/
structure CacheEntry where
  data : TrendDetectionResponse
  timestamp : ℤ
deriving DecidableEq

/-- The in-memory `cachedTrends` map, as an association list. -/
abbrev TrendCache := List (String × CacheEntry)

/-- JS `Map.get`. -/
def cacheLookup (cache : TrendCache) (key : String) : Option CacheEntry :=
  cache.lookup key

/-- JS `Map.set`, modelled by prepending: `cacheLookup` sees the newest
binding for the key, which is observationally `Map.set` for `Map.get`. -/
def cacheSet (cache : TrendCache) (key : String) (entry : CacheEntry) : TrendCache :=
  (key, entry) :: cache

/-- Source field `cacheExpiryMs = 30 * 60 * 1000` (30 minutes). -/
def cacheExpiryMs : ℤ := 30 * 60 * 1000

/-- Source `getCacheKey`: `platform-(category || 'all')-(limit || 10)`;
JS `||` sends both an absent and a zero `limit` to 10. -/
def getCacheKey (req : TrendDetectionRequest) : String :=
  platformToString req.platform ++ "-" ++
    (match req.category with
     | some c => categoryToString c
     | none => "all") ++ "-" ++
    toString
      (match req.limit with
       | some l => if l = 0 then 10 else l
       | none => 10)

/-- The generation path of `detectTrends` (everything after the cache check):
trends, optional hashtag analysis, optional buzz patterns, optimal timings,
stamped `analyzedAt := now`.  `limit = 10` is the destructuring default. -/
def freshResponse (env : TrendEnv) (now : ℤ) (req : TrendDetectionRequest) :
    TrendDetectionResponse :=
  let trends := generateTrendingTopics env now req.platform req.category (req.limit.getD 10)
  ⟨trends,
   if req.includeHashtags ≠ some false then analyzeHashtags env.rand req.platform trends else [],
   if req.includeBuzzPatterns ≠ some false then getBuzzPatterns req.platform else [],
   calculateOptimalTimings req.platform,
   now⟩

/-- Source `detectTrends`: on a fresh cache hit the cached response is returned
unchanged; otherwise the response is generated and cached at time `now`.  The
returned `Bool` records whether the generation path (`generateTrendingTopics`)
was executed. -/
def detectTrends (env : TrendEnv) (now : ℤ) (cache : TrendCache)
    (req : TrendDetectionRequest) : TrendDetectionResponse × TrendCache × Bool :=
  let cacheKey := getCacheKey req
  match cacheLookup cache cacheKey with
  | some cached =>
    if now - cached.timestamp < cacheExpiryMs then
      (cached.data, cache, false)
    else
      let response := freshResponse env now req
      (response, cacheSet cache cacheKey ⟨response, now⟩, true)
  | none =>
    let response := freshResponse env now req
    (response, cacheSet cache cacheKey ⟨response, now⟩, true)

/-- Environment with no API key configured (mock-data deployment). -/
def noClientEnv : TrendEnv := ⟨none, fun _ => none, fun _ => 0⟩

/-- Environment whose LLM answers with text containing no JSON array and whose
`JSON.parse` rejects everything. -/
def badJsonEnv : TrendEnv := ⟨some (.success "plain text"), fun _ => none, fun _ => 0⟩

/-- A minimal trend request: platform only. -/
def basicRequest : TrendDetectionRequest := ⟨.threads, none, none, none, none⟩

/-- The threads/news/limit-10 request from the empty-result example. -/
def newsRequest : TrendDetectionRequest := ⟨.threads, some .news, some 10, none, none⟩

end Sns

/-! ## Helper lemmas -/

namespace Sns

theorem jsRound_bounds {q : ℚ} {a b : ℤ} (h1 : (a : ℚ) ≤ q) (h2 : q ≤ (b : ℚ)) :
    a ≤ jsRound q ∧ jsRound q ≤ b := by
  have k : (⌊((1 : ℚ)/2)⌋ : ℤ) = 0 := by norm_num
  constructor
  · have hm := Int.floor_mono (show (a : ℚ) + 1/2 ≤ q + 1/2 by linarith)
    rw [Int.floor_int_add, k, add_zero] at hm
    simpa [jsRound] using hm
  · have hm := Int.floor_mono (show q + 1/2 ≤ (b : ℚ) + 1/2 by linarith)
    rw [Int.floor_int_add, k, add_zero] at hm
    simpa [jsRound] using hm

theorem jsRound_mono {p q : ℚ} (h : p ≤ q) : jsRound p ≤ jsRound q :=
  Int.floor_mono (by linarith)

theorem minCap_bounds {cap x : ℚ} (hcap : 0 ≤ cap) (hx : 0 ≤ x) :
    0 ≤ min cap x ∧ min cap x ≤ cap :=
  ⟨le_min hcap hx, min_le_left _ _⟩

theorem replyRatio_bounds (d : UserBehaviorData) (hc : 0 ≤ d.commentsGiven) :
    0 ≤ replyRatio d ∧ replyRatio d ≤ 1 := by
  unfold replyRatio
  split_ifs with h
  · exact ⟨le_min zero_le_one (div_nonneg hc h.le), min_le_left _ _⟩
  · norm_num

theorem calculateEngagementScore_bounds (d : UserBehaviorData)
    (hl : 0 ≤ d.likesGiven) (hc : 0 ≤ d.commentsGiven) (hs : 0 ≤ d.sharesGiven) :
    0 ≤ calculateEngagementScore d ∧ calculateEngagementScore d ≤ 100 := by
  obtain ⟨a1, a2⟩ := minCap_bounds (show (0:ℚ) ≤ 25 by norm_num)
    (show (0:ℚ) ≤ d.likesGiven / 50 * 25 from
      mul_nonneg (div_nonneg hl (by norm_num)) (by norm_num))
  obtain ⟨b1, b2⟩ := minCap_bounds (show (0:ℚ) ≤ 30 by norm_num)
    (show (0:ℚ) ≤ d.commentsGiven / 20 * 30 from
      mul_nonneg (div_nonneg hc (by norm_num)) (by norm_num))
  obtain ⟨c1, c2⟩ := minCap_bounds (show (0:ℚ) ≤ 20 by norm_num)
    (show (0:ℚ) ≤ d.sharesGiven / 10 * 20 from
      mul_nonneg (div_nonneg hs (by norm_num)) (by norm_num))
  obtain ⟨r1, r2⟩ := replyRatio_bounds d hc
  unfold calculateEngagementScore likeScore commentScore shareScore replyScore
  exact jsRound_bounds (by push_cast; linarith) (by push_cast; linarith)

theorem frequencyVariance_nonneg (d : UserBehaviorData) : 0 ≤ frequencyVariance d := by
  unfold frequencyVariance
  split_ifs with h
  · exact div_nonneg (abs_nonneg _) h.le
  · norm_num

theorem stabilityScore_bounds (d : UserBehaviorData) :
    0 ≤ stabilityScore d ∧ stabilityScore d ≤ 40 := by
  refine ⟨le_max_left _ _, max_le (by norm_num) ?_⟩
  have h := mul_nonneg (frequencyVariance_nonneg d) (show (0:ℚ) ≤ 40 by norm_num)
  linarith

theorem frequencyScore_bounds (d : UserBehaviorData) :
    0 ≤ frequencyScore d ∧ frequencyScore d ≤ 30 := by
  refine ⟨le_max_left _ _, max_le (by norm_num) ?_⟩
  have h := mul_nonneg (abs_nonneg (d.postsThisWeek - idealPostsPerWeek))
    (show (0:ℚ) ≤ 5 by norm_num)
  unfold frequencyDiff
  linarith

theorem timingRatio_bounds (d : UserBehaviorData) :
    0 ≤ timingRatio d ∧ timingRatio d ≤ 1 := by
  unfold timingRatio
  split_ifs with h
  · constructor
    · positivity
    · rw [div_le_one (by exact_mod_cast h)]
      exact_mod_cast List.length_filter_le _ _
  · norm_num

theorem calculateConsistencyScore_bounds (d : UserBehaviorData) :
    0 ≤ calculateConsistencyScore d ∧ calculateConsistencyScore d ≤ 100 := by
  obtain ⟨a1, a2⟩ := stabilityScore_bounds d
  obtain ⟨b1, b2⟩ := frequencyScore_bounds d
  obtain ⟨c1, c2⟩ := timingRatio_bounds d
  unfold calculateConsistencyScore timingScore
  exact jsRound_bounds (by push_cast; linarith) (by push_cast; linarith)

theorem calculateTrendScore_bounds (d : UserBehaviorData)
    (h1 : 0 ≤ d.trendingHashtagsUsed) (h2 : 0 ≤ d.trendingTopicsEngaged)
    (h3 : 0 ≤ d.earlyTrendEngagement) :
    0 ≤ calculateTrendScore d ∧ calculateTrendScore d ≤ 100 := by
  obtain ⟨a1, a2⟩ := minCap_bounds (show (0:ℚ) ≤ 35 by norm_num)
    (show (0:ℚ) ≤ d.trendingHashtagsUsed / 5 * 35 from
      mul_nonneg (div_nonneg h1 (by norm_num)) (by norm_num))
  obtain ⟨b1, b2⟩ := minCap_bounds (show (0:ℚ) ≤ 35 by norm_num)
    (show (0:ℚ) ≤ d.trendingTopicsEngaged / 3 * 35 from
      mul_nonneg (div_nonneg h2 (by norm_num)) (by norm_num))
  obtain ⟨c1, c2⟩ := minCap_bounds (show (0:ℚ) ≤ 30 by norm_num)
    (show (0:ℚ) ≤ d.earlyTrendEngagement / 2 * 30 from
      mul_nonneg (div_nonneg h3 (by norm_num)) (by norm_num))
  unfold calculateTrendScore hashtagScore topicScore earlyScore
  exact jsRound_bounds (by push_cast; linarith) (by push_cast; linarith)

theorem calculateCommunityScore_bounds (d : UserBehaviorData)
    (h1 : 0 ≤ d.followersGained) (h2 : 0 ≤ d.mentionsReceived)
    (h3 : 0 ≤ d.savedByOthers) (h4 : 0 ≤ d.profileVisits) :
    0 ≤ calculateCommunityScore d ∧ calculateCommunityScore d ≤ 100 := by
  obtain ⟨a1, a2⟩ := minCap_bounds (show (0:ℚ) ≤ 30 by norm_num)
    (show (0:ℚ) ≤ d.followersGained / 10 * 30 from
      mul_nonneg (div_nonneg h1 (by norm_num)) (by norm_num))
  obtain ⟨b1, b2⟩ := minCap_bounds (show (0:ℚ) ≤ 25 by norm_num)
    (show (0:ℚ) ≤ d.mentionsReceived / 5 * 25 from
      mul_nonneg (div_nonneg h2 (by norm_num)) (by norm_num))
  obtain ⟨c1, c2⟩ := minCap_bounds (show (0:ℚ) ≤ 25 by norm_num)
    (show (0:ℚ) ≤ d.savedByOthers / 10 * 25 from
      mul_nonneg (div_nonneg h3 (by norm_num)) (by norm_num))
  obtain ⟨e1, e2⟩ := minCap_bounds (show (0:ℚ) ≤ 20 by norm_num)
    (show (0:ℚ) ≤ d.profileVisits / 50 * 20 from
      mul_nonneg (div_nonneg h4 (by norm_num)) (by norm_num))
  unfold calculateCommunityScore followerScore mentionScore savedScore profileScore
  exact jsRound_bounds (by push_cast; linarith) (by push_cast; linarith)

end Sns

/-! ## Claim theorems -/

namespace Sns

/-- C1 (counterexample): the claim that the all-zero snapshot scores 0 on every
component fails on the code — the engagement sub-score of the all-zero
snapshot is 13, because a zero `repliesReceived` defaults the reply ratio to
0.5 (12.5 points, rounded to 13). -/
theorem c1_counterexample :
    ¬ ((calculatePlatformScore Platform.threads zeroBehaviorData).overallScore = 0 ∧
       (calculatePlatformScore Platform.threads zeroBehaviorData).engagementScore = 0 ∧
       (calculatePlatformScore Platform.threads zeroBehaviorData).consistencyScore = 0 ∧
       (calculatePlatformScore Platform.threads zeroBehaviorData).trendScore = 0 ∧
       (calculatePlatformScore Platform.threads zeroBehaviorData).communityScore = 0) := by
  intro h
  have he : (calculatePlatformScore Platform.threads zeroBehaviorData).engagementScore = 13 := by
    show calculateEngagementScore zeroBehaviorData = 13
    simp only [calculateEngagementScore, likeScore, commentScore, shareScore,
      replyScore, replyRatio, zeroBehaviorData, jsRound]
    norm_num
  rw [h.2.1] at he
  norm_num at he

/-- C1 (amended): on the all-zero snapshot (for every platform),
`calculatePlatformScore` returns engagement 13 (reply-ratio default),
consistency 5 (ideal-frequency term), trend 0, community 0, and overall
score `round(0.35·13 + 0.25·5) = 6`. -/
theorem c1_zero_counters_amended (p : Platform) :
    calculatePlatformScore p zeroBehaviorData = ⟨p, 6, 13, 5, 0, 0⟩ := by
  have he : calculateEngagementScore zeroBehaviorData = 13 := by
    simp only [calculateEngagementScore, likeScore, commentScore, shareScore,
      replyScore, replyRatio, zeroBehaviorData, jsRound]
    norm_num
  have hcons : calculateConsistencyScore zeroBehaviorData = 5 := by
    simp only [calculateConsistencyScore, stabilityScore, frequencyScore, frequencyVariance,
      frequencyDiff, idealPostsPerWeek, timingScore, timingRatio, goldenHourPosts,
      zeroBehaviorData, jsRound]
    norm_num
  have htr : calculateTrendScore zeroBehaviorData = 0 := by
    simp only [calculateTrendScore, hashtagScore, topicScore, earlyScore,
      zeroBehaviorData, jsRound]
    norm_num
  have hcom : calculateCommunityScore zeroBehaviorData = 0 := by
    simp only [calculateCommunityScore, followerScore, mentionScore, savedScore, profileScore,
      zeroBehaviorData, jsRound]
    norm_num
  simp only [calculatePlatformScore, he, hcons, htr, hcom, calculateOverallScore, jsRound,
    PlatformScore.mk.injEq]
  norm_num

/-- C2: for every behavioral snapshot with non-negative counters and post
timings in 0..23, every sub-score of `calculatePlatformScore` lies in [0,100]
and the overall score is the weighted half-up round of the returned
sub-scores. -/
theorem c2_score_invariants (p : Platform) (d : UserBehaviorData)
    (h1 : 0 ≤ d.likesGiven) (h2 : 0 ≤ d.commentsGiven) (h3 : 0 ≤ d.sharesGiven)
    (_h4 : 0 ≤ d.repliesReceived) (_h5 : 0 ≤ d.postsThisWeek) (_h6 : 0 ≤ d.postsLastWeek)
    (_h7 : 0 ≤ d.averagePostsPerWeek) (_h8 : ∀ t ∈ d.postTimings, 0 ≤ t ∧ t ≤ 23)
    (h9 : 0 ≤ d.trendingHashtagsUsed) (h10 : 0 ≤ d.trendingTopicsEngaged)
    (h11 : 0 ≤ d.earlyTrendEngagement) (h12 : 0 ≤ d.followersGained)
    (h13 : 0 ≤ d.mentionsReceived) (h14 : 0 ≤ d.savedByOthers)
    (h15 : 0 ≤ d.profileVisits) :
    (0 ≤ (calculatePlatformScore p d).engagementScore ∧
      (calculatePlatformScore p d).engagementScore ≤ 100) ∧
    (0 ≤ (calculatePlatformScore p d).consistencyScore ∧
      (calculatePlatformScore p d).consistencyScore ≤ 100) ∧
    (0 ≤ (calculatePlatformScore p d).trendScore ∧
      (calculatePlatformScore p d).trendScore ≤ 100) ∧
    (0 ≤ (calculatePlatformScore p d).communityScore ∧
      (calculatePlatformScore p d).communityScore ≤ 100) ∧
    (calculatePlatformScore p d).overallScore =
      jsRound (0.35 * ((calculatePlatformScore p d).engagementScore : ℚ) +
        0.25 * ((calculatePlatformScore p d).consistencyScore : ℚ) +
        0.20 * ((calculatePlatformScore p d).trendScore : ℚ) +
        0.20 * ((calculatePlatformScore p d).communityScore : ℚ)) := by
  refine ⟨calculateEngagementScore_bounds d h1 h2 h3,
    calculateConsistencyScore_bounds d,
    calculateTrendScore_bounds d h9 h10 h11,
    calculateCommunityScore_bounds d h12 h13 h14 h15, ?_⟩
  simp only [calculatePlatformScore]
  unfold calculateOverallScore jsRound
  congr 1
  ring

/-- Witness for C2 at the all-zero snapshot on `threads`. -/
theorem c2_score_invariants_witness :
    (0 ≤ (calculatePlatformScore Platform.threads zeroBehaviorData).engagementScore ∧
      (calculatePlatformScore Platform.threads zeroBehaviorData).engagementScore ≤ 100) ∧
    (0 ≤ (calculatePlatformScore Platform.threads zeroBehaviorData).consistencyScore ∧
      (calculatePlatformScore Platform.threads zeroBehaviorData).consistencyScore ≤ 100) ∧
    (0 ≤ (calculatePlatformScore Platform.threads zeroBehaviorData).trendScore ∧
      (calculatePlatformScore Platform.threads zeroBehaviorData).trendScore ≤ 100) ∧
    (0 ≤ (calculatePlatformScore Platform.threads zeroBehaviorData).communityScore ∧
      (calculatePlatformScore Platform.threads zeroBehaviorData).communityScore ≤ 100) ∧
    (calculatePlatformScore Platform.threads zeroBehaviorData).overallScore =
      jsRound (0.35 * ((calculatePlatformScore Platform.threads zeroBehaviorData).engagementScore : ℚ) +
        0.25 * ((calculatePlatformScore Platform.threads zeroBehaviorData).consistencyScore : ℚ) +
        0.20 * ((calculatePlatformScore Platform.threads zeroBehaviorData).trendScore : ℚ) +
        0.20 * ((calculatePlatformScore Platform.threads zeroBehaviorData).communityScore : ℚ)) :=
  c2_score_invariants Platform.threads zeroBehaviorData (by decide) (by decide) (by decide)
    (by decide) (by decide) (by decide) (by decide) (by simp [zeroBehaviorData]) (by decide)
    (by decide) (by decide) (by decide) (by decide) (by decide) (by decide)

/-- C4: `isRatioHealthy` is a total function of the ratio and classifies by
first-match precedence: healthy exactly on [0.8, 0.95], warning exactly above
0.95, critical exactly below 0.7, acceptable exactly on [0.7, 0.8). -/
theorem c4_ratio_health (r : ℚ) :
    (isRatioHealthy r = RatioStatus.healthy ↔ 0.8 ≤ r ∧ r ≤ 0.95) ∧
    (isRatioHealthy r = RatioStatus.warning ↔ 0.95 < r) ∧
    (isRatioHealthy r = RatioStatus.critical ↔ r < 0.7) ∧
    (isRatioHealthy r = RatioStatus.acceptable ↔ 0.7 ≤ r ∧ r < 0.8) := by
  unfold isRatioHealthy
  split_ifs with h1 h2 h3
  · exact ⟨iff_of_true rfl h1,
      iff_of_false (by simp) (not_lt.mpr h1.2),
      iff_of_false (by simp) (not_lt.mpr (by linarith [h1.1])),
      iff_of_false (by simp) (fun hh => absurd hh.2 (not_lt.mpr h1.1))⟩
  · exact ⟨iff_of_false (by simp) h1,
      iff_of_true rfl h2,
      iff_of_false (by simp) (not_lt.mpr (by linarith)),
      iff_of_false (by simp) (fun hh => absurd hh.2 (not_lt.mpr (by linarith)))⟩
  · push_neg at h2
    exact ⟨iff_of_false (by simp) h1,
      iff_of_false (by simp) (not_lt.mpr h2),
      iff_of_true rfl h3,
      iff_of_false (by simp) (fun hh => absurd hh.1 (not_le.mpr h3))⟩
  · push_neg at h2 h3
    have hr8 : r < 0.8 := by
      by_contra hc
      push_neg at hc
      exact absurd (h1 ⟨hc, h2⟩) (by simp)
    exact ⟨iff_of_false (by simp) h1,
      iff_of_false (by simp) (not_lt.mpr h2),
      iff_of_false (by simp) (not_lt.mpr h3),
      iff_of_true rfl ⟨h3, hr8⟩⟩

/-- C5: `classifyPost` scores are the counts of impression/expression keywords
occurring as substrings, ties in `suggestedMode` favor impression, confidence
is the unclamped score gap over 5 (so it exceeds 1 on keyword-heavy text), and
the three-impression-keyword example classifies exactly as claimed. -/
theorem c5_classify_post (content : String) :
    (classifyPost content).impressionScore =
      impressionKeywords.countP (fun kw => jsIncludes content kw) ∧
    (classifyPost content).expressionScore =
      expressionKeywords.countP (fun kw => jsIncludes content kw) ∧
    ((classifyPost content).suggestedMode = PostMode.impression ↔
      (classifyPost content).expressionScore ≤ (classifyPost content).impressionScore) ∧
    (classifyPost content).confidence =
      |((classifyPost content).impressionScore : ℚ) -
        ((classifyPost content).expressionScore : ℚ)| / 5 ∧
    classifyPost "方法 コツ ポイント" = ⟨PostMode.impression, 3/5, 0, 3⟩ ∧
    classifyPost "方法 コツ ポイント 解説 紹介 おすすめ" = ⟨PostMode.impression, 6/5, 0, 6⟩ ∧
    1 < (classifyPost "方法 コツ ポイント 解説 紹介 おすすめ").confidence := by
  have hex1 : classifyPost "方法 コツ ポイント" = ⟨PostMode.impression, 3/5, 0, 3⟩ := by
    have he : (expressionKeywords.filter
        (fun kw => jsIncludes "方法 コツ ポイント" kw)).length = 0 := by rfl
    have hi : (impressionKeywords.filter
        (fun kw => jsIncludes "方法 コツ ポイント" kw)).length = 3 := by rfl
    simp only [classifyPost, he, hi]
    norm_num
  have hex2 : classifyPost "方法 コツ ポイント 解説 紹介 おすすめ" =
      ⟨PostMode.impression, 6/5, 0, 6⟩ := by
    have he : (expressionKeywords.filter
        (fun kw => jsIncludes "方法 コツ ポイント 解説 紹介 おすすめ" kw)).length = 0 := by rfl
    have hi : (impressionKeywords.filter
        (fun kw => jsIncludes "方法 コツ ポイント 解説 紹介 おすすめ" kw)).length = 6 := by rfl
    simp only [classifyPost, he, hi]
    norm_num
  refine ⟨?_, ?_, ?_, ?_, hex1, hex2, ?_⟩
  · simp [classifyPost, List.countP_eq_length_filter]
  · simp [classifyPost, List.countP_eq_length_filter]
  · simp only [classifyPost]
    split_ifs with h
    · simp [h]
    · simp [h]
  · rfl
  · rw [hex2]
    norm_num

/-- C8: holding every other field of the snapshot fixed, the engagement
sub-score is monotone non-decreasing in `commentsGiven`. -/
theorem c8_engagement_monotone (d : UserBehaviorData) (c1 c2 : ℚ)
    (_h0 : 0 ≤ c1) (h12 : c1 ≤ c2) :
    calculateEngagementScore (withCommentsGiven d c1) ≤
      calculateEngagementScore (withCommentsGiven d c2) := by
  have hreply : replyRatio (withCommentsGiven d c1) ≤ replyRatio (withCommentsGiven d c2) := by
    unfold replyRatio withCommentsGiven
    simp only
    split_ifs with h
    · exact min_le_min le_rfl (by gcongr)
    · exact le_rfl
  have hcomment : commentScore (withCommentsGiven d c1) ≤
      commentScore (withCommentsGiven d c2) := by
    unfold commentScore withCommentsGiven
    simp only
    exact min_le_min le_rfl (by gcongr)
  have hlike : likeScore (withCommentsGiven d c1) = likeScore (withCommentsGiven d c2) := rfl
  have hshare : shareScore (withCommentsGiven d c1) = shareScore (withCommentsGiven d c2) := rfl
  have hrs : replyScore (withCommentsGiven d c1) ≤ replyScore (withCommentsGiven d c2) := by
    unfold replyScore
    exact mul_le_mul_of_nonneg_right hreply (by norm_num)
  unfold calculateEngagementScore
  apply jsRound_mono
  linarith [hlike.le, hshare.le]

/-- Witness for C8 at the all-zero snapshot with `commentsGiven` 0 and 5. -/
theorem c8_engagement_monotone_witness :
    calculateEngagementScore (withCommentsGiven zeroBehaviorData 0) ≤
      calculateEngagementScore (withCommentsGiven zeroBehaviorData 5) :=
  c8_engagement_monotone zeroBehaviorData 0 5 (by decide) (by decide)

/-- Indexing the generated schedule at `i < 7` gives the loop body at `i`. -/
theorem getD_generateWeeklySchedule (days : List ℤ) (start : ℤ) (i : ℕ) (h : i < 7) :
    (generateWeeklySchedule days start).getD i dummyScheduleItem = scheduleItem days start i := by
  interval_cases i <;> rfl

/-- Componentwise description of one schedule item. -/
theorem scheduleItem_spec (days : List ℤ) (start : ℤ) (i : ℕ) :
    (scheduleItem days start i).date = start + i ∧
    (scheduleItem days start i).dayOfWeek = getDay (start + i) ∧
    ((scheduleItem days start i).isExpressionDay = true ↔ getDay (start + i) ∈ days) ∧
    ((scheduleItem days start i).recommendedMode = PostMode.expression ↔
      (scheduleItem days start i).isExpressionDay = true) ∧
    (scheduleItem days start i).recommendedMode = getRecommendedMode days (start + i) := by
  unfold scheduleItem getRecommendedMode
  by_cases hmem : getDay (start + (i : ℤ)) ∈ days <;> simp [hmem]

/-- C6: `generateWeeklySchedule` returns exactly 7 items; item `i` is dated
`startDate + i`, so consecutive items are exactly one day apart; an item is an
expression day exactly when its day-of-week lies in the configured set; the
recommended mode is `expression` exactly on expression days; and each item's
mode agrees with the single-day `getRecommendedMode` at that item's date. -/
theorem c6_weekly_schedule (days : List ℤ) (start : ℤ) :
    (generateWeeklySchedule days start).length = 7 ∧
    (∀ i : Fin 7,
      ((generateWeeklySchedule days start).getD (i : ℕ) dummyScheduleItem).date =
        start + (i : ℕ)) ∧
    (∀ i : Fin 6,
      ((generateWeeklySchedule days start).getD ((i : ℕ) + 1) dummyScheduleItem).date =
        ((generateWeeklySchedule days start).getD (i : ℕ) dummyScheduleItem).date + 1) ∧
    (∀ i : Fin 7,
      (((generateWeeklySchedule days start).getD (i : ℕ) dummyScheduleItem).isExpressionDay =
          true ↔
        ((generateWeeklySchedule days start).getD (i : ℕ) dummyScheduleItem).dayOfWeek ∈ days) ∧
      (((generateWeeklySchedule days start).getD (i : ℕ) dummyScheduleItem).recommendedMode =
          PostMode.expression ↔
        ((generateWeeklySchedule days start).getD (i : ℕ) dummyScheduleItem).isExpressionDay =
          true) ∧
      ((generateWeeklySchedule days start).getD (i : ℕ) dummyScheduleItem).recommendedMode =
        getRecommendedMode days
          (((generateWeeklySchedule days start).getD (i : ℕ) dummyScheduleItem).date)) := by
  refine ⟨rfl, ?_, ?_, ?_⟩
  · intro i
    rw [getD_generateWeeklySchedule days start (i : ℕ) i.isLt]
    exact (scheduleItem_spec days start (i : ℕ)).1
  · intro i
    rw [getD_generateWeeklySchedule days start ((i : ℕ) + 1) (by omega),
      getD_generateWeeklySchedule days start (i : ℕ) (by omega),
      (scheduleItem_spec days start ((i : ℕ) + 1)).1,
      (scheduleItem_spec days start (i : ℕ)).1]
    push_cast
    ring
  · intro i
    rw [getD_generateWeeklySchedule days start (i : ℕ) i.isLt]
    obtain ⟨h1, h2, h3, h4, h5⟩ := scheduleItem_spec days start (i : ℕ)
    refine ⟨?_, h4, ?_⟩
    · rw [h2]
      exact h3
    · rw [h1]
      exact h5

/-- C7 (counterexample): a constructor call supplying ratios 0 and 0 makes
`normalizeRatios` divide by the zero total, and the stored ratios then do not
sum to 1 (NaN in JS; 0 in the rational model of `0/0`), refuting the
unconditional construction invariant. -/
theorem c7_counterexample :
    (newStrategyManager ⟨some 0, some 0, none, none⟩).impressionRatio +
      (newStrategyManager ⟨some 0, some 0, none, none⟩).expressionRatio ≠ 1 := by
  norm_num [newStrategyManager, mergeStrategy, normalizeRatios, DEFAULT_STRATEGY]

/-- C7 (amended): excluding the zero-total degenerate case, construction
normalizes the merged ratios to sum exactly 1; importing an exported strategy
whose ratios do not sum to 0 yields ratios summing to 1; and after any
`setImpressionRatio` call the impression ratio is clamped into [0.5, 1] with
`expressionRatio = 1 - impressionRatio`. -/
theorem c7_ratio_invariants_amended (p : StrategyInput) (s m : EngagementStrategy) (r : ℚ)
    (hp : (mergeStrategy DEFAULT_STRATEGY p).impressionRatio +
      (mergeStrategy DEFAULT_STRATEGY p).expressionRatio ≠ 0)
    (hm : m.impressionRatio + m.expressionRatio ≠ 0) :
    (newStrategyManager p).impressionRatio + (newStrategyManager p).expressionRatio = 1 ∧
    (importStrategy (exportStrategy m)).impressionRatio +
      (importStrategy (exportStrategy m)).expressionRatio = 1 ∧
    0.5 ≤ (setImpressionRatio s r).impressionRatio ∧
    (setImpressionRatio s r).impressionRatio ≤ 1 ∧
    (setImpressionRatio s r).expressionRatio = 1 - (setImpressionRatio s r).impressionRatio := by
  have key : ∀ t : EngagementStrategy, t.impressionRatio + t.expressionRatio ≠ 0 →
      (normalizeRatios t).impressionRatio + (normalizeRatios t).expressionRatio = 1 := by
    intro t ht
    simp only [normalizeRatios]
    split_ifs with h
    · dsimp only
      rw [div_add_div_same, div_self ht]
    · push_neg at h
      exact h
  refine ⟨key _ hp, key _ hm, ?_, ?_, rfl⟩
  · exact le_max_left _ _
  · exact max_le (by norm_num) (min_le_left _ _)

/-- Witness for C7 with the default construction, an export/import round trip
of the default strategy, and a `setImpressionRatio 2` call. -/
theorem c7_ratio_invariants_witness :
    (newStrategyManager ⟨none, none, none, none⟩).impressionRatio +
      (newStrategyManager ⟨none, none, none, none⟩).expressionRatio = 1 ∧
    (importStrategy (exportStrategy DEFAULT_STRATEGY)).impressionRatio +
      (importStrategy (exportStrategy DEFAULT_STRATEGY)).expressionRatio = 1 ∧
    0.5 ≤ (setImpressionRatio DEFAULT_STRATEGY 2).impressionRatio ∧
    (setImpressionRatio DEFAULT_STRATEGY 2).impressionRatio ≤ 1 ∧
    (setImpressionRatio DEFAULT_STRATEGY 2).expressionRatio =
      1 - (setImpressionRatio DEFAULT_STRATEGY 2).impressionRatio :=
  c7_ratio_invariants_amended ⟨none, none, none, none⟩ DEFAULT_STRATEGY DEFAULT_STRATEGY 2
    (by norm_num [mergeStrategy, DEFAULT_STRATEGY])
    (by norm_num [DEFAULT_STRATEGY])

/-- Every trend in the static mock table carries the platform it is filed
under. -/
theorem mockTopics_platform (now : ℤ) (p : Platform) :
    ∀ t ∈ mockTopics now p, t.platform = p := by
  cases p <;> (intro t ht; fin_cases ht <;> rfl)

/-- The static mock table holds at most 5 topics per platform. -/
theorem mockTopics_length (now : ℤ) (p : Platform) : (mockTopics now p).length ≤ 5 := by
  cases p <;> simp [mockTopics]

/-- Mock trends keep the requested platform. -/
theorem getMockTrendingTopics_platform (now : ℤ) (p : Platform)
    (category : Option TrendCategory) (limit : ℕ) :
    ∀ t ∈ getMockTrendingTopics now p category limit, t.platform = p := by
  intro t ht
  apply mockTopics_platform now p
  cases category <;> simp only [getMockTrendingTopics] at ht
  · exact List.take_subset _ _ ht
  · exact List.mem_of_mem_filter (List.take_subset _ _ ht)

/-- Mock trends keep the requested category when one is supplied. -/
theorem getMockTrendingTopics_category (now : ℤ) (p : Platform) (c : TrendCategory)
    (limit : ℕ) :
    ∀ t ∈ getMockTrendingTopics now p (some c) limit, t.category = c := by
  intro t ht
  simp only [getMockTrendingTopics] at ht
  exact of_decide_eq_true (List.mem_filter.mp (List.take_subset _ _ ht)).2

/-- At most `min limit 5` mock trends are returned. -/
theorem getMockTrendingTopics_length (now : ℤ) (p : Platform)
    (category : Option TrendCategory) (limit : ℕ) :
    (getMockTrendingTopics now p category limit).length ≤ min limit 5 := by
  cases category <;> simp only [getMockTrendingTopics]
  · rw [List.length_take]
    exact min_le_min le_rfl (mockTopics_length now p)
  · rw [List.length_take]
    exact min_le_min le_rfl ((List.length_filter_le _ _).trans (mockTopics_length now p))

/-- On a cache miss the trends of the `detectTrends` response are the freshly
generated ones. -/
theorem detectTrends_miss_trends (env : TrendEnv) (now : ℤ) (cache : TrendCache)
    (req : TrendDetectionRequest)
    (hcold : cacheLookup cache (getCacheKey req) = none) :
    (detectTrends env now cache req).1.trends =
      generateTrendingTopics env now req.platform req.category (req.limit.getD 10) := by
  simp only [detectTrends, hcold, freshResponse]

/-- C3: the cache key is `platform-(category||'all')-(limit||10)`; after a
first call on a cold key at `t1`, a second call with the same platform,
category and limit at `t2` with `t2 - t1` under 30 minutes returns exactly the
first call's response, leaves the cache unchanged, and performs no second
generation call (whatever the second call's environment does). -/
theorem c3_cache_hit (env1 env2 : TrendEnv) (cache : TrendCache) (t1 t2 : ℤ)
    (req1 req2 : TrendDetectionRequest)
    (hp : req2.platform = req1.platform) (hc : req2.category = req1.category)
    (hl : req2.limit = req1.limit)
    (hcold : cacheLookup cache (getCacheKey req1) = none)
    (hfresh : t2 - t1 < cacheExpiryMs) :
    (∀ p c l hh hb, l ≠ 0 →
      getCacheKey ⟨p, some c, some l, hh, hb⟩ =
        platformToString p ++ "-" ++ categoryToString c ++ "-" ++ toString l) ∧
    (detectTrends env1 t1 cache req1).2.2 = true ∧
    (detectTrends env2 t2 (detectTrends env1 t1 cache req1).2.1 req2).1 =
      (detectTrends env1 t1 cache req1).1 ∧
    (detectTrends env2 t2 (detectTrends env1 t1 cache req1).2.1 req2).2.1 =
      (detectTrends env1 t1 cache req1).2.1 ∧
    (detectTrends env2 t2 (detectTrends env1 t1 cache req1).2.1 req2).2.2 = false := by
  have hkey : getCacheKey req2 = getCacheKey req1 := by
    unfold getCacheKey
    rw [hp, hc, hl]
  have h1 : detectTrends env1 t1 cache req1 =
      (freshResponse env1 t1 req1,
       cacheSet cache (getCacheKey req1) ⟨freshResponse env1 t1 req1, t1⟩, true) := by
    simp only [detectTrends, hcold]
  have hlk : cacheLookup (cacheSet cache (getCacheKey req1)
      ⟨freshResponse env1 t1 req1, t1⟩) (getCacheKey req1) =
      some ⟨freshResponse env1 t1 req1, t1⟩ := by
    simp [cacheLookup, cacheSet]
  have h2 : detectTrends env2 t2 (cacheSet cache (getCacheKey req1)
      ⟨freshResponse env1 t1 req1, t1⟩) req2 =
      (freshResponse env1 t1 req1,
       cacheSet cache (getCacheKey req1) ⟨freshResponse env1 t1 req1, t1⟩, false) := by
    simp only [detectTrends, hkey, hlk, hfresh, if_true]
  refine ⟨?_, ?_, ?_, ?_, ?_⟩
  · intro p c l hh hb hl0
    simp [getCacheKey, hl0]
  · rw [h1]
  · rw [h1, h2]
  · rw [h1, h2]
  · rw [h1, h2]

/-- Witness for C3: no-key environment, threads-only request, empty cache,
first call at time 0, second at time 1. -/
theorem c3_cache_hit_witness :
    (∀ p c l hh hb, l ≠ 0 →
      getCacheKey ⟨p, some c, some l, hh, hb⟩ =
        platformToString p ++ "-" ++ categoryToString c ++ "-" ++ toString l) ∧
    (detectTrends noClientEnv 0 [] basicRequest).2.2 = true ∧
    (detectTrends noClientEnv 1 (detectTrends noClientEnv 0 [] basicRequest).2.1
        basicRequest).1 =
      (detectTrends noClientEnv 0 [] basicRequest).1 ∧
    (detectTrends noClientEnv 1 (detectTrends noClientEnv 0 [] basicRequest).2.1
        basicRequest).2.1 =
      (detectTrends noClientEnv 0 [] basicRequest).2.1 ∧
    (detectTrends noClientEnv 1 (detectTrends noClientEnv 0 [] basicRequest).2.1
        basicRequest).2.2 = false :=
  c3_cache_hit noClientEnv noClientEnv [] 0 1 basicRequest basicRequest rfl rfl rfl rfl
    (by decide)

/-- C9: with a configured client whose response text yields no JSON-array
regex match, or whose extracted text `JSON.parse` rejects, trend generation
returns the static mock topics (filtered by category, truncated to the limit);
on a cache miss `detectTrends` returns those mock trends — the failure is
recovered locally, and the total model never surfaces an error. -/
theorem c9_llm_parse_fallback (env : TrendEnv) (now : ℤ) (cache : TrendCache)
    (req : TrendDetectionRequest) (text : String)
    (hclient : env.client = some (LLMResult.success text))
    (hbad : ∀ m, extractJsonArray text = some m → env.parseTopics m = none)
    (hcold : cacheLookup cache (getCacheKey req) = none) :
    (∀ platform category limit,
      generateTrendingTopics env now platform category limit =
        getMockTrendingTopics now platform category limit) ∧
    (detectTrends env now cache req).1.trends =
      getMockTrendingTopics now req.platform req.category (req.limit.getD 10) := by
  have hgen : ∀ platform category limit,
      generateTrendingTopics env now platform category limit =
        getMockTrendingTopics now platform category limit := by
    intro platform category limit
    unfold generateTrendingTopics
    rw [hclient]
    dsimp only
    cases hext : extractJsonArray text with
    | none => rfl
    | some m =>
      dsimp only
      rw [hbad m hext]
  refine ⟨hgen, ?_⟩
  rw [detectTrends_miss_trends env now cache req hcold]
  exact hgen _ _ _

/-- Witness for C9: client answering "plain text" (no JSON array), rejecting
parser, empty cache, threads-only request. -/
theorem c9_llm_parse_fallback_witness :
    (∀ platform category limit,
      generateTrendingTopics badJsonEnv 0 platform category limit =
        getMockTrendingTopics 0 platform category limit) ∧
    (detectTrends badJsonEnv 0 [] basicRequest).1.trends =
      getMockTrendingTopics 0 basicRequest.platform basicRequest.category
        (basicRequest.limit.getD 10) :=
  c9_llm_parse_fallback badJsonEnv 0 [] basicRequest "plain text" rfl
    (fun _ _ => rfl) rfl

/-- C10: with no API key configured, on a cache miss `detectTrends` serves the
static mock table filtered by category and truncated to the limit: every trend
carries the requested platform, every trend matches a supplied category, at
most `min limit 5` trends are returned, and the threads/news combination is
empty even with a positive limit. -/
theorem c10_mock_trends (env : TrendEnv) (now : ℤ) (cache : TrendCache)
    (req : TrendDetectionRequest) (l : ℕ)
    (hclient : env.client = none)
    (hcold : cacheLookup cache (getCacheKey req) = none)
    (hlimit : req.limit = some l) :
    (detectTrends env now cache req).1.trends =
      getMockTrendingTopics now req.platform req.category l ∧
    (∀ t ∈ getMockTrendingTopics now req.platform req.category l,
      t.platform = req.platform) ∧
    (∀ c, req.category = some c →
      ∀ t ∈ getMockTrendingTopics now req.platform req.category l, t.category = c) ∧
    (getMockTrendingTopics now req.platform req.category l).length ≤ min l 5 ∧
    (req.platform = Platform.threads → req.category = some TrendCategory.news →
      (detectTrends env now cache req).1.trends = []) := by
  have htrends : (detectTrends env now cache req).1.trends =
      getMockTrendingTopics now req.platform req.category l := by
    rw [detectTrends_miss_trends env now cache req hcold, hlimit]
    unfold generateTrendingTopics
    rw [hclient]
    rfl
  refine ⟨htrends, getMockTrendingTopics_platform now req.platform req.category l, ?_,
    getMockTrendingTopics_length now req.platform req.category l, ?_⟩
  · intro c hcat
    rw [hcat]
    exact getMockTrendingTopics_category now req.platform c l
  · intro hplat hcat
    rw [htrends, hplat, hcat]
    have hfil : (mockTopics now Platform.threads).filter
        (fun t => decide (t.category = TrendCategory.news)) = [] := rfl
    simp [getMockTrendingTopics, hfil]

/-- Witness for C10: no-key environment, empty cache, the threads/news request
with limit 10 — the returned trends list is empty. -/
theorem c10_mock_trends_witness :
    (detectTrends noClientEnv 0 [] newsRequest).1.trends =
      getMockTrendingTopics 0 newsRequest.platform newsRequest.category 10 ∧
    (∀ t ∈ getMockTrendingTopics 0 newsRequest.platform newsRequest.category 10,
      t.platform = newsRequest.platform) ∧
    (∀ c, newsRequest.category = some c →
      ∀ t ∈ getMockTrendingTopics 0 newsRequest.platform newsRequest.category 10,
        t.category = c) ∧
    (getMockTrendingTopics 0 newsRequest.platform newsRequest.category 10).length ≤
      min 10 5 ∧
    (newsRequest.platform = Platform.threads →
      newsRequest.category = some TrendCategory.news →
      (detectTrends noClientEnv 0 [] newsRequest).1.trends = []) :=
  c10_mock_trends noClientEnv 0 [] newsRequest 10 rfl rfl rfl

end Sns
